import Mathlib

/-!
Verification development for the broh5 repository (a browser-based HDF viewer).
The Python modules `broh5/lib/utilities.py`, `broh5/lib/interactions.py` and
`broh5/lib/rendering.py` are shallowly embedded below: numpy arrays become
dimension-indexed entry functions over the rationals, the mutable GUI widget
state becomes an explicit record that the embedded methods transform, and the
external collaborators (the h5py reader and the display toolkit) become
function parameters.
-/

namespace Broh5

/-- A 2-D numpy array: a height, a width and a total entry function.
Entries are rationals, which model both integer and floating data. -/
structure Mat where
  height : Nat
  width : Nat
  entry : Nat → Nat → ℚ

/-- Transposition of a 2-D array (`np.transpose`). -/
def Mat.transpose (m : Mat) : Mat :=
  ⟨m.width, m.height, fun i j => m.entry j i⟩

/-- A 1-D or 2-D numpy array, the only shapes broh5 ever feeds to the table
formatter and the CSV writer (`self.image` is 2-D, `self.data_1d_2d` is
1-D or 2-D). -/
inductive NpArray where
  | d1 (xs : List ℚ)
  | d2 (m : Mat)

/-- View a 1-D or 2-D array as 2-D, mirroring the
`np.expand_dims(np.asarray(data), 1)` step of `format_table_from_array`. -/
def NpArray.as2d (a : NpArray) : Mat :=
  match a with
  | .d1 xs => ⟨xs.length, 1, fun i _ => xs.getD i 0⟩
  | .d2 m => m

/-- utilities.format_table_from_array: format a 1-D/2-D array for the
NiceGUI table.  A 1-D array is expanded to a column; if the array is wider
than tall it is transposed; if afterwards both dimensions exceed 1000 the
function returns `(none, none)`; otherwise it builds "Column j" headers with
an "Index" header in front, and one association row per array row whose
first entry is the row index. -/
def format_table_from_array (a : NpArray) :
    Option (List (List (String × ℚ))) × Option (List String) :=
  let m := a.as2d
  let m := if m.width > m.height then m.transpose else m
  if m.height > 1000 ∧ m.width > 1000 then
    (none, none)
  else
    let columns : List String :=
      "Index" :: (List.range m.width).map (fun j => "Column " ++ toString j)
    let rows : List (List (String × ℚ)) :=
      (List.range m.height).map (fun (i : Nat) =>
        columns.zip ((↑i : ℚ) :: (List.range m.width).map (fun j => m.entry i j)))
    (some rows, some columns)

/-- utilities.save_table: write a 1-D/2-D array to a CSV file.  The Python
code executes `open(file_path, "w")` before any size check, so the target
file is truncated at once; the function returns an optional error message
together with the lines the target file holds afterwards.  A 2-D array is
written only when `height * width < 4000000`; otherwise the error string is
returned with the file already emptied, regardless of `initial`, the lines
the target held before the call. -/
def save_table (initial : List String) (a : NpArray) :
    Option String × List String :=
  let _ := initial
  match a with
  | .d1 xs => (none, xs.map (fun v => toString v))
  | .d2 m =>
      if m.height * m.width < 4000000 then
        (none, (List.range m.height).map (fun i =>
          String.intercalate ","
            ((List.range m.width).map (fun j => toString (m.entry i j)))))
      else
        (some "Array has more than 4,000,000 elements. Operation not performed.",
         [])

/-- Splitting of a character list at every dot, mirroring the Python string
method `name.split(".")`: the result always has at least one part, and a
part is empty where two dots are adjacent or a dot starts or ends the
name. -/
def splitOnDot (cs : List Char) : List (List Char) :=
  match cs with
  | [] => [[]]
  | c :: rest =>
      let r := splitOnDot rest
      if c = '.' then [] :: r
      else
        match r with
        | [] => [[c]]
        | h :: t => (c :: h) :: t

/-- The extension of a path with its dot, mirroring
`os.path.splitext(file_path)[-1]` and `pathlib.Path.suffix` on plain file
names: the empty string when the name holds no dot, otherwise a dot followed
by the last dot-separated part. -/
def path_suffix (name : String) : String :=
  let parts := splitOnDot name.toList
  if parts.length ≤ 1 then "" else "." ++ String.mk (parts.getLastD [])

/-- All entries of a 2-D array in row order (`mat.ravel()`). -/
def matVals (m : Mat) : List ℚ :=
  ((List.range m.height).map (fun i =>
    (List.range m.width).map (fun j => m.entry i j))).flatten

/-- np.min over a non-empty 2-D array. -/
def matMin (m : Mat) : ℚ := (matVals m).foldl min (m.entry 0 0)

/-- np.max over a non-empty 2-D array. -/
def matMax (m : Mat) : ℚ := (matVals m).foldl max (m.entry 0 0)

/-- Cast of a numpy float to uint8 (`np.uint8`): truncation of the
non-negative rescaled value followed by the modular wrap of the C cast. -/
def npUint8 (q : ℚ) : Nat := q.floor.toNat % 256

/-- utilities.save_image: save a 2-D array as an image file.  For a non-TIFF
extension the array is first rescaled to 8 bits by
`255.0 * (mat - np.min(mat)) / (np.max(mat) - np.min(mat))` with no guard on
a zero denominator (a constant array divides zero by zero; numpy emits NaN
values that the uint8 cast turns into zeros, and in this rational model the
division by zero yields zero directly).  For a TIFF extension the array is
only cast to float32, an identity here.  The image is then written; the
returned message is "none" unless the encoder itself fails, which this model
does not represent, and the second component is the matrix written to disk. -/
def save_image (file_ext : String) (mat : Mat) : Option String × Option Mat :=
  if ¬(file_ext = ".tif" ∨ file_ext = ".tiff") then
    let lo := matMin mat
    let hi := matMax mat
    let out : Mat := ⟨mat.height, mat.width,
      fun i j => (npUint8 (255 * (mat.entry i j - lo) / (hi - lo)) : ℚ)⟩
    (none, some out)
  else
    (none, some mat)

/-- What GuiInteraction.save_image leaves on disk: an encoded image or the
lines of a CSV file. -/
inductive Saved where
  | img (m : Mat)
  | csv (lines : List String)

/-- GuiInteraction.save_image, after the save dialog returned `file_path`:
if no image is displayed nothing happens; an extension outside
{.tif, .jpg, .png, .csv} only earns a notice; a .csv extension routes to
save_table and any other accepted extension to utilities.save_image; a
returned error string is notified, otherwise a saved/overwritten notice
names the path.  `fileExists` is `os.path.isfile(file_path)` before the
write and `target` the lines the target file held. -/
def gui_save_image (file_path : String) (image : Option Mat)
    (fileExists : Bool) (target : List String) : List String × Option Saved :=
  match image with
  | none => ([], none)
  | some m =>
      let file_ext := path_suffix file_path
      if file_ext ≠ ".tif" ∧ file_ext ≠ ".jpg" ∧ file_ext ≠ ".png" ∧
          file_ext ≠ ".csv" then
        (["Please use .tif, .jpg, .png, or .csv as file extension!"], none)
      else
        let res : Option String × Option Saved :=
          if file_ext = ".csv" then
            let r := save_table target (NpArray.d2 m)
            (r.1, some (Saved.csv r.2))
          else
            let r := save_image file_ext m
            (r.1, Option.map Saved.img r.2)
        match res.1 with
        | some err => ([err], res.2)
        | none =>
            (if fileExists then ["File " ++ file_path ++ " is overwritten"]
             else ["File is saved at: " ++ file_path], res.2)

/-! GUI constants of rendering.py. -/

def MARKER_LIST : List String := [",", ".", "o", "x"]

def CMAP_LIST : List String := ["gray", "inferno", "afmhot", "viridis", "magma"]

def AXIS_LIST : List Nat := [0, 1, 2]

def DISPLAY_TYPE : List String := ["plot", "table"]

def INPUT_EXT : List String := ["hdf", "nxs", "h5", "hdf5"]

/-- The ViewState tuple that GuiInteraction.show_data builds on every poll
and compares with the stored `self.current_state`, field for field in the
order of the Python tuple. -/
structure ViewState where
  filePath : String
  hdfKey : String
  sliderVal : Nat
  hdfValue : String
  axisVal : Nat
  cmapVal : String
  displayTypeVal : String
  markerVal : String
  minVal : Nat
  maxVal : Nat
  selectedTab : Nat
  zoomVal : Bool
  profileVal : Bool
deriving DecidableEq

/-- The mutable widget state of GuiInteraction: the text labels, the values
and enabled flags of the selectors, check boxes and sliders, the visibility
flags of the panels, the cached data fields, and the two stored comparison
states.  Figures and the matplotlib canvases are not part of the record;
they are redrawn from these fields. -/
structure UiState where
  filePathText : String
  hdfKeyText : String
  hdfValueText : String
  axisVal : Nat
  cmapVal : String
  displayTypeVal : String
  markerVal : String
  axisEnabled : Bool
  cmapEnabled : Bool
  displayTypeEnabled : Bool
  markerEnabled : Bool
  zoomChecked : Bool
  zoomEnabled : Bool
  zoomListEnabled : Bool
  profileChecked : Bool
  profileEnabled : Bool
  profileListEnabled : Bool
  mainSliderVal : Nat
  mainSliderMax : Nat
  mainSliderEnabled : Bool
  minSliderVal : Nat
  minSliderEnabled : Bool
  maxSliderVal : Nat
  maxSliderEnabled : Bool
  rows : Option (List (List (String × ℚ)))
  columns : Option (List String)
  image : Option Mat
  imageNorm : Option Mat
  data1d2d : Option NpArray
  mainTableVisible : Bool
  mainPlotVisible : Bool
  zoomProfileVisible : Bool
  histogramVisible : Bool
  imageInfoVisible : Bool
  saveImageEnabled : Bool
  saveDataEnabled : Bool
  selectedTab : Nat
  currentState : Option ViewState
  currentSlice : Option (Nat × Nat × String)

/-- The ViewState tuple read off the widgets, exactly the thirteen
components of `new_state` in GuiInteraction.show_data. -/
def viewStateOf (s : UiState) : ViewState :=
  ⟨s.filePathText, s.hdfKeyText, s.mainSliderVal, s.hdfValueText, s.axisVal,
   s.cmapVal, s.displayTypeVal, s.markerVal, s.minSliderVal, s.maxSliderVal,
   s.selectedTab, s.zoomChecked, s.profileChecked⟩

/-- GuiInteraction.disable_sliders: reset and disable the three sliders. -/
def disable_sliders (s : UiState) : UiState :=
  { s with mainSliderVal := 0, mainSliderEnabled := false,
           minSliderVal := 0, minSliderEnabled := false,
           maxSliderVal := 255, maxSliderEnabled := false }

/-- GuiInteraction.reset: reset the UI elements to their initial state.
When `keep_display` is false the three text labels are cleared first;
they are preserved otherwise. -/
def reset (s : UiState) (keep_display : Bool) : UiState :=
  let s := if keep_display then s
           else { s with hdfKeyText := "", filePathText := "", hdfValueText := "" }
  let s := { s with axisVal := AXIS_LIST.headI, cmapVal := CMAP_LIST.headI,
                    displayTypeVal := DISPLAY_TYPE.headI,
                    markerVal := MARKER_LIST.headI,
                    axisEnabled := false, cmapEnabled := false,
                    displayTypeEnabled := false, markerEnabled := false,
                    zoomChecked := false, zoomEnabled := false,
                    zoomListEnabled := false,
                    profileChecked := false, profileEnabled := false,
                    profileListEnabled := false }
  let s := disable_sliders s
  { s with rows := none, columns := none,
           image := none, imageNorm := none, data1d2d := none,
           mainTableVisible := false, mainPlotVisible := true,
           zoomProfileVisible := false,
           saveImageEnabled := false, saveDataEnabled := false,
           histogramVisible := false, imageInfoVisible := false,
           selectedTab := 1 }

/-- GuiInteraction.enable_ui_elements_3d_data: enable the image-related
widgets, hide or show the zoom/profile canvas, and disable the plot/table
widgets. -/
def enable_ui_elements_3d_data (s : UiState) : UiState :=
  let s := { s with mainSliderEnabled := true, maxSliderEnabled := true,
                    minSliderEnabled := true, mainPlotVisible := true,
                    axisEnabled := true, cmapEnabled := true,
                    zoomEnabled := true, zoomListEnabled := true,
                    profileEnabled := true, profileListEnabled := true,
                    saveImageEnabled := true, histogramVisible := true,
                    imageInfoVisible := true }
  let s := if s.profileChecked ∨ s.zoomChecked
           then { s with zoomProfileVisible := true }
           else { s with zoomProfileVisible := false, imageNorm := none }
  { s with mainTableVisible := false, displayTypeEnabled := false,
           markerEnabled := false, saveDataEnabled := false,
           data1d2d := none }

/-- GuiInteraction.enable_ui_elements_1d_2d_data: drop the cached image,
disable and reset the image-related widgets, and enable the plot/table
widgets, moving the panel back to tab one. -/
def enable_ui_elements_1d_2d_data (s : UiState) : UiState :=
  let s := { s with image := none, imageNorm := none }
  let s := disable_sliders s
  { s with axisVal := AXIS_LIST.headI, cmapVal := CMAP_LIST.headI,
           axisEnabled := false, cmapEnabled := false,
           zoomEnabled := false, zoomListEnabled := false,
           profileEnabled := false, profileListEnabled := false,
           saveImageEnabled := false, histogramVisible := false,
           imageInfoVisible := false, zoomProfileVisible := false,
           displayTypeEnabled := true, markerEnabled := true,
           saveDataEnabled := true, selectedTab := 1 }

/-- A 3-D numpy array with a total entry function. -/
structure Arr3 where
  depth : Nat
  height : Nat
  width : Nat
  entry : Nat → Nat → Nat → ℚ

/-- The slice `a[d]` of a 3-D array along axis 0. -/
def Arr3.slice0 (a : Arr3) (d : Nat) : Mat :=
  ⟨a.height, a.width, fun i j => a.entry d i j⟩

/-- The slice `a[:, d, :]` of a 3-D array along axis 1. -/
def Arr3.slice1 (a : Arr3) (d : Nat) : Mat :=
  ⟨a.depth, a.width, fun i j => a.entry i d j⟩

/-- The slice `a[:, :, d]` of a 3-D array along axis 2. -/
def Arr3.slice2 (a : Arr3) (d : Nat) : Mat :=
  ⟨a.depth, a.height, fun i j => a.entry i j d⟩

/-- The slider-bound update of display_3d_data: the stored slider maximum
is rewritten only when it differs from the freshly computed bound. -/
def update_slider_max (s : UiState) (max_val : Nat) : UiState :=
  if s.mainSliderMax ≠ max_val then { s with mainSliderMax := max_val }
  else s

/-- The slider clamp of display_3d_data: a requested position beyond the
bound is moved back to the bound; returns the state together with the
position d_pos actually used. -/
def clamp_slider (s : UiState) (max_val : Nat) : UiState × Nat :=
  if s.mainSliderVal > max_val then
    ({ s with mainSliderVal := max_val }, max_val)
  else (s, s.mainSliderVal)

/-- The slicing logic of GuiInteraction.display_3d_data after the widget
enabling: recompute the slider bound for the current axis, clamp the slider
value to the bound, and, when the (slider, axis, file) triple changed or no
slice is cached, extract the slice — falling back to slice 0 of axis 0
with a notice when axis 2 is requested on an array whose depth and height
both exceed 1000, and warning without falling back when axis 1 is requested
on an array whose depth and width both exceed 1000.  Returns the new state
and the notices emitted. -/
def display_3d_slicing_core (s : UiState) (a : Arr3) : UiState × List String :=
  let max_val := if s.axisVal = 2 then a.width - 1
                 else if s.axisVal = 1 then a.height - 1
                 else a.depth - 1
  let sd := clamp_slider (update_slider_max s max_val) max_val
  let s := sd.1
  let d_pos := sd.2
  let new_slice : Nat × Nat × String := (s.mainSliderVal, s.axisVal, s.filePathText)
  if some new_slice ≠ s.currentSlice ∨ s.image.isNone = true then
    let s := { s with currentSlice := some new_slice }
    if s.axisVal = 2 then
      if a.depth > 1000 ∧ a.height > 1000 then
        ({ s with axisVal := 0, mainSliderVal := 0, image := some (a.slice0 0) },
         ["Slicing along axis 2 is very time-consuming!"])
      else
        ({ s with image := some (a.slice2 d_pos) }, [])
    else if s.axisVal = 1 then
      ({ s with image := some (a.slice1 d_pos) },
       if a.depth > 1000 ∧ a.width > 1000 then
         ["Slicing along axis 1 can take time !"]
       else [])
    else
      ({ s with image := some (a.slice0 d_pos) }, [])
  else (s, [])

/-- GuiInteraction.display_3d_data, lines 371-404: the widget enabling
followed by the bound, clamp and slice logic of the core above. -/
def display_3d_slicing (s : UiState) (a : Arr3) : UiState × List String :=
  display_3d_slicing_core (enable_ui_elements_3d_data s) a

/-- Lines 405-419 of GuiInteraction.display_3d_data: contrast
normalization.  When the slider window is not the default [0, 255], a
crossed window first pulls the minimum down to `np.clip(max_val - 1, 0,
254)`; then, if the cached slice is not constant, it is rescaled to 0-255
by its own extrema, cast to uint8 and clipped to the window; a constant
slice becomes an all-zero image of the same shape.  With the default window
the normalized image is a plain copy.  The Python code runs this after the
slicing step, so the image field is always set; the none branch is
unreachable there. -/
def apply_contrast (s : UiState) : UiState :=
  let min_val := s.minSliderVal
  let max_val := s.maxSliderVal
  if 0 < min_val ∨ max_val < 255 then
    let sm := if min_val ≥ max_val then
                let mv := min (max_val - 1) 254
                ({ s with minSliderVal := mv }, mv)
              else (s, min_val)
    let s := sm.1
    let min_val := sm.2
    match s.image with
    | none => s
    | some img =>
        let nmin := matMin img
        let nmax := matMax img
        if nmax ≠ nmin then
          let norm : Mat := ⟨img.height, img.width, fun i j =>
            (npUint8 (255 * (img.entry i j - nmin) / (nmax - nmin)) : ℚ)⟩
          { s with imageNorm := some ⟨norm.height, norm.width, fun i j =>
              min (max (norm.entry i j) (min_val : ℚ)) ((max_val : ℚ))⟩ }
        else
          { s with imageNorm := some ⟨img.height, img.width, fun _ _ => 0⟩ }
  else
    { s with imageNorm := s.image }

/-- GuiInteraction.display_3d_data: the slicing step followed by the
contrast normalization.  The redraw of the canvas and, on tab two, of the
statistics table and the histogram (lines 421-446) only renders these
fields and is not part of the record. -/
def display_3d_data (s : UiState) (a : Arr3) : UiState × List String :=
  let r := display_3d_slicing s a
  (apply_contrast r.1, r.2)

/-- What the plot area of the main panel renders after
GuiInteraction.display_1d_2d_data. -/
inductive PlotOut where
  | table (rows : Option (List (List (String × ℚ))))
          (cols : Option (List String))
  | coords (x y : List ℚ)
  | raster (m : Mat)

/-- Row `r` of a 2-D array as a list (`data_obj[r]`). -/
def Mat.row (m : Mat) (r : Nat) : List ℚ :=
  (List.range m.width).map (fun j => m.entry r j)

/-- Column `c` of a 2-D array as a list (`data_obj[:, c]`). -/
def Mat.col (m : Mat) (c : Nat) : List ℚ :=
  (List.range m.height).map (fun i => m.entry i c)

/-- GuiInteraction.display_1d_2d_data: enable the 1-D/2-D widgets and cache
the data; in table mode format the array for the table widget; in plot mode
a 2-D array with two rows plots row 0 against row 1, otherwise one with two
columns plots column 0 against column 1, any other 2-D array is shown as a
raster image, and a 1-D array is plotted against the indices 0..len-1. -/
def display_1d_2d_data (s : UiState) (data : NpArray) (disp_type : String) :
    UiState × PlotOut :=
  let s := enable_ui_elements_1d_2d_data s
  let s := { s with data1d2d := some data }
  if disp_type = "table" then
    let rc := format_table_from_array data
    ({ s with mainPlotVisible := false, mainTableVisible := true,
              rows := rc.1, columns := rc.2 },
     .table rc.1 rc.2)
  else
    let s := { s with mainPlotVisible := true, mainTableVisible := false }
    match data with
    | .d2 m =>
        if m.height = 2 then (s, .coords (m.row 0) (m.row 1))
        else if m.width = 2 then (s, .coords (m.col 0) (m.col 1))
        else (s, .raster m)
    | .d1 xs =>
        (s, .coords ((List.range xs.length).map (fun (i : Nat) => (i : ℚ))) xs)

/-- The outcome of utilities.get_hdf_data together with the h5py reads that
follow it in show_data: a scalar with its printed value, an array with its
shape, any other data-type string ("group", "not path", "unknown", or an
error text that get_hdf_data caught itself), or an exception escaping into
the `except` branch of show_data. -/
inductive HdfData where
  | scalarStr (printed : String)
  | scalarNum (printed : String)
  | scalarBool (printed : String)
  | arr (shape : List Nat)
  | other (data_type : String)
  | exn (msg : String)

/-- GuiInteraction.show_data, one poll of the timer.  The collaborators are
passed as functions: `fetch` is utilities.get_hdf_data plus the h5py reads
behind it, `linkCheck` is utilities.check_external_link (returning
ext_link, broken, message), `compCheck` is
utilities.check_compressed_dataset (returning compressed, ext_compressed,
message), and `disp3`/`disp12` are the two display methods applied to the
state with the freshly opened dataset.  Returns the new state, the number
of file-opening reads performed, and the notices shown. -/
def show_data (fetch : String → String → HdfData)
    (linkCheck compCheck : String → String → Bool × Bool × String)
    (disp3 : UiState → List Nat → UiState × List String)
    (disp12 : UiState → List Nat → UiState × List String)
    (s : UiState) : UiState × Nat × List String :=
  let file_path1 := s.filePathText
  let hdf_key1 := s.hdfKeyText
  if file_path1 ≠ "" ∧ hdf_key1 ≠ "" then
    let new_state := viewStateOf s
    if s.currentState ≠ some new_state then
      let s1 := { s with currentState := some new_state }
      match fetch file_path1 hdf_key1 with
      | .scalarStr v => (reset { s1 with hdfValueText := v } true, 1, [])
      | .scalarNum v => (reset { s1 with hdfValueText := v } true, 1, [])
      | .scalarBool v => (reset { s1 with hdfValueText := v } true, 1, [])
      | .arr shape =>
          let s2 := { s1 with
            hdfValueText := "Array shape: " ++ toString shape }
          let dim := shape.length
          if dim = 3 then
            let r := disp3 s2 shape
            (r.1, 2, r.2)
          else if dim < 3 then
            let r := disp12 s2 shape
            (r.1, 2, r.2)
          else
            (reset s2 true, 2,
             ["Can\x27t display " ++ toString dim ++ "-d array!"])
      | .other d => (reset { s1 with hdfValueText := d } true, 1, [])
      | .exn msg =>
          let s2 := reset s1 true
          let lc := linkCheck file_path1 hdf_key1
          if lc.2.1 then (s2, 1, [lc.2.2])
          else
            let cc := compCheck file_path1 hdf_key1
            if cc.2.1 then (s2, 1, [cc.2.2])
            else
              (s2, 1,
               ["Error: " ++ msg,
                "Dataset may be an external link and the target file is " ++
                "not accessible (moved, deleted, or corrupted) !!!"])
    else (s, 0, [])
  else
    (reset { s with hdfValueText := "" } true, 0, [])

/-- FilePicker.check_extension: a file name passes when its last
dot-separated part, lowered, is in the allow-list; with no allow-list every
name passes. -/
def check_extension (allowed_extensions : Option (List String))
    (filename : String) : Bool :=
  match allowed_extensions with
  | none => true
  | some exts =>
      exts.contains
        (String.mk (((splitOnDot filename.toList).getLastD []).map Char.toLower))

/-- The filter of FilePicker.update_grid: with a non-empty allow-list a
path is listed when it is a directory or check_extension accepts its name;
a missing or empty allow-list lists everything. -/
def update_grid_keeps (allowed_extensions : Option (List String))
    (isDir : Bool) (name : String) : Bool :=
  match allowed_extensions with
  | none => true
  | some exts =>
      if exts.isEmpty then true
      else isDir || check_extension (some exts) name

/-- The acceptance test of FilePicker.handle_ok on the selected row: the
path suffix must be one of ".h5", ".hdf" or ".nxs", else only a notice is
shown and nothing is submitted. -/
def handle_ok_accepts (selected_path : String) : Bool :=
  [".h5", ".hdf", ".nxs"].contains (path_suffix selected_path)

/-- FilePicker.handle_double_click submits every path that is not a
directory, with no extension test at all. -/
def handle_double_click_submits (isDir : Bool) : Bool :=
  !isDir

/-- The widget state right after GuiRendering.init_gui: every widget at its
initial value from rendering.py, everything enabled, nothing cached. -/
def initState : UiState :=
  { filePathText := "", hdfKeyText := "", hdfValueText := "",
    axisVal := 0, cmapVal := "gray", displayTypeVal := "plot",
    markerVal := ",",
    axisEnabled := true, cmapEnabled := true, displayTypeEnabled := true,
    markerEnabled := true,
    zoomChecked := false, zoomEnabled := true, zoomListEnabled := true,
    profileChecked := false, profileEnabled := true,
    profileListEnabled := true,
    mainSliderVal := 0, mainSliderMax := 100, mainSliderEnabled := true,
    minSliderVal := 0, minSliderEnabled := true,
    maxSliderVal := 255, maxSliderEnabled := true,
    rows := none, columns := none, image := none, imageNorm := none,
    data1d2d := none,
    mainTableVisible := true, mainPlotVisible := true,
    zoomProfileVisible := true, histogramVisible := true,
    imageInfoVisible := true,
    saveImageEnabled := true, saveDataEnabled := true,
    selectedTab := 1, currentState := none, currentSlice := none }

end Broh5

namespace Broh5

/-- C1, counterexample: the claim says every array whose cell count
height*width exceeds 1,000,000 is rejected with (none, none); the code only
rejects when both dimensions exceed 1000, so a 1000001-by-1 array, with
1,000,001 cells, is still formatted into a table. -/
theorem c1_counterexample :
    1000001 * 1 > 1000000 ∧
    (format_table_from_array (NpArray.d2 ⟨1000001, 1, fun _ _ => 0⟩)).1 ≠ none := by
  refine ⟨by norm_num, ?_⟩
  norm_num [format_table_from_array, NpArray.as2d]
  exact fun h => Option.noConfusion h

/-- C1, amended: format_table_from_array rejects a 2-D array, returning
(none, none), exactly when both of its dimensions exceed 1000 (the
1000-by-1000 ceiling applied per dimension after orienting the longer
dimension as height, not to the cell count); every other array is formatted
into index-prefixed rows and columns, the column list starting with "Index"
and row i starting with the entry ("Index", i). -/
theorem c1_table_size_gate (m : Mat) :
    (format_table_from_array (NpArray.d2 m) = (none, none) ↔
      1000 < m.height ∧ 1000 < m.width) ∧
    (¬(1000 < m.height ∧ 1000 < m.width) →
      ∃ rows cols,
        format_table_from_array (NpArray.d2 m) = (some rows, some cols) ∧
        cols.headI = "Index" ∧
        rows.map List.headI =
          (List.range (max m.height m.width)).map
            (fun (i : Nat) => (("Index", (i : ℚ)) : String × ℚ))) := by
  unfold format_table_from_array NpArray.as2d
  by_cases hw : m.width > m.height
  · simp only [if_pos hw, Mat.transpose]
    by_cases hc : 1000 < m.height ∧ 1000 < m.width
    · rw [if_pos ⟨hc.2, hc.1⟩]
      exact ⟨iff_of_true rfl hc, fun h => absurd hc h⟩
    · rw [if_neg (fun h => hc ⟨h.2, h.1⟩)]
      refine ⟨iff_of_false (by simp) hc, fun _ => ⟨_, _, rfl, rfl, ?_⟩⟩
      rw [Nat.max_eq_right (le_of_lt hw)]
      simp [List.map_map, Function.comp_def, List.zip_cons_cons]
  · simp only [if_neg hw]
    by_cases hc : 1000 < m.height ∧ 1000 < m.width
    · rw [if_pos hc]
      exact ⟨iff_of_true rfl hc, fun h => absurd hc h⟩
    · rw [if_neg hc]
      refine ⟨iff_of_false (by simp) hc, fun _ => ⟨_, _, rfl, rfl, ?_⟩⟩
      rw [Nat.max_eq_left (Nat.le_of_not_lt hw)]
      simp [List.map_map, Function.comp_def, List.zip_cons_cons]

/-- C1, witness: the size gate applied to a 3-by-2 array, which is within
the ceiling and is formatted with an Index column and index-prefixed
rows. -/
theorem c1_table_size_gate_witness :
    ¬(1000 < (⟨3, 2, fun _ _ => 0⟩ : Mat).height ∧
      1000 < (⟨3, 2, fun _ _ => 0⟩ : Mat).width) ∧
    (∃ rows cols,
      format_table_from_array (NpArray.d2 ⟨3, 2, fun _ _ => 0⟩) =
        (some rows, some cols) ∧
      cols.headI = "Index" ∧
      rows.map List.headI =
        (List.range (max 3 2)).map
          (fun (i : Nat) => (("Index", (i : ℚ)) : String × ℚ))) :=
  ⟨by norm_num,
   (c1_table_size_gate ⟨3, 2, fun _ _ => 0⟩).2 (by norm_num)⟩

/-- C2: exporting a 4,000,001-cell 2-D array to CSV returns the
size-rejection error message, yet the target file does not keep its earlier
contents: save_table opens the file in write mode before the size check, so
rejection leaves the previously non-empty target truncated to nothing,
while an export of a 3,999,999-cell array succeeds. -/
theorem c2_save_table_truncates_on_rejection :
    save_table ["1,2,3"] (NpArray.d2 ⟨4000001, 1, fun _ _ => 0⟩) =
      (some "Array has more than 4,000,000 elements. Operation not performed.",
       []) ∧
    (["1,2,3"] : List String) ≠ [] ∧
    (save_table ["1,2,3"] (NpArray.d2 ⟨3999999, 1, fun _ _ => 0⟩)).1 = none := by
  refine ⟨?_, by simp, ?_⟩
  · norm_num [save_table]
  · norm_num [save_table]

/-- C3, counterexample: the claim says exporting a constant-valued 2-D
array to a non-TIFF target aborts with a user notice before the 8-bit
rescale divides by zero, leaving no file; the code has no such guard, so a
constant 2-by-2 image saved as .png divides by a zero denominator, writes
the file anyway and notifies success. -/
theorem c3_counterexample :
    matMax ⟨2, 2, fun _ _ => 7⟩ = matMin ⟨2, 2, fun _ _ => 7⟩ ∧
    (gui_save_image "out.png" (some ⟨2, 2, fun _ _ => 7⟩) false []).1 =
      ["File is saved at: out.png"] ∧
    (gui_save_image "out.png" (some ⟨2, 2, fun _ _ => 7⟩) false []).2 ≠ none := by
  refine ⟨by decide, ?_, ?_⟩
  · simp only [gui_save_image, show path_suffix "out.png" = ".png" from by decide]
    rw [if_neg (by decide), if_neg (by decide)]
    simp only [save_image]
    rw [if_pos (by decide)]
    decide
  · simp only [gui_save_image, show path_suffix "out.png" = ".png" from by decide]
    rw [if_neg (by decide), if_neg (by decide)]
    simp only [save_image]
    rw [if_pos (by decide)]
    simp

/-- C3, amended: utilities.save_image has no max==min guard; the guard
exists only in the display normalization of display_3d_data.  Exporting a
constant-valued 2-D array to a .png or .jpg target runs the 8-bit rescale
with a zero denominator (numpy yields NaN pixels that the uint8 cast turns
into zeros) and still writes the file, after which the GUI notifies a
successful save or overwrite rather than aborting. -/
theorem c3_no_constant_guard (file_path : String) (m : Mat)
    (fileExists : Bool) (target : List String)
    (hext : path_suffix file_path = ".png" ∨ path_suffix file_path = ".jpg")
    (hconst : matMax m = matMin m) :
    matMax m - matMin m = 0 ∧
    (gui_save_image file_path (some m) fileExists target).2 ≠ none ∧
    (gui_save_image file_path (some m) fileExists target).1 =
      (if fileExists then ["File " ++ file_path ++ " is overwritten"]
       else ["File is saved at: " ++ file_path]) := by
  refine ⟨by rw [hconst]; ring, ?_, ?_⟩
  · rcases hext with h | h
    · simp only [gui_save_image, h]
      rw [if_neg (by decide), if_neg (by decide)]
      simp only [save_image]
      rw [if_pos (by decide)]
      simp
    · simp only [gui_save_image, h]
      rw [if_neg (by decide), if_neg (by decide)]
      simp only [save_image]
      rw [if_pos (by decide)]
      simp
  · rcases hext with h | h
    · simp only [gui_save_image, h]
      rw [if_neg (by decide), if_neg (by decide)]
      simp only [save_image]
      rw [if_pos (by decide)]
    · simp only [gui_save_image, h]
      rw [if_neg (by decide), if_neg (by decide)]
      simp only [save_image]
      rw [if_pos (by decide)]

/-- C3, witness: the amended theorem applied to a constant 1-by-1 array
exported to an existing .jpg target. -/
theorem c3_no_constant_guard_witness :
    (path_suffix "a.jpg" = ".png" ∨ path_suffix "a.jpg" = ".jpg") ∧
    matMax ⟨1, 1, fun _ _ => 3⟩ = matMin ⟨1, 1, fun _ _ => 3⟩ ∧
    (matMax ⟨1, 1, fun _ _ => 3⟩ - matMin ⟨1, 1, fun _ _ => 3⟩ = 0 ∧
     (gui_save_image "a.jpg" (some ⟨1, 1, fun _ _ => 3⟩) true ["x"]).2 ≠ none ∧
     (gui_save_image "a.jpg" (some ⟨1, 1, fun _ _ => 3⟩) true ["x"]).1 =
       (if true then ["File " ++ "a.jpg" ++ " is overwritten"]
        else ["File is saved at: " ++ "a.jpg"])) :=
  ⟨Or.inr (by decide), by norm_num [matMax, matMin, matVals],
   c3_no_constant_guard "a.jpg" ⟨1, 1, fun _ _ => 3⟩ true ["x"]
     (Or.inr (by decide)) (by norm_num [matMax, matMin, matVals])⟩

/-- A fetch collaborator that always raises, for concrete instantiation. -/
def fetchBoom : String → String → HdfData := fun _ _ => HdfData.exn "boom"

/-- A link-check collaborator reporting a broken external link. -/
def linkBroken : String → String → Bool × Bool × String :=
  fun _ _ =>
    (true, true, "Dataset is an external link but failed to link. Error: boom")

/-- A compression-check collaborator reporting no external filter. -/
def compNone : String → String → Bool × Bool × String :=
  fun _ _ => (false, false, "")

/-- A display collaborator that changes nothing, for concrete
instantiation. -/
def dispNoop : UiState → List Nat → UiState × List String := fun s _ => (s, [])

/-- The initial state with a file and a key selected. -/
def pickedState : UiState :=
  { initState with filePathText := "a.h5", hdfKeyText := "entry" }

/-- C4: when the fetch of the reconciliation pass raises, show_data resets
the view to the blank disabled state with keep_display semantics —
preserving the file-path and key texts and clearing every cached datum and
control — and surfaces exactly one diagnostic in fixed order: the broken
external-link message when the link check reports broken, otherwise the
codec message when the compression check reports an unavailable external
filter, otherwise the raw error text together with the generic
target-file-inaccessible hint. -/
theorem c4_fetch_error_diagnostics
    (fetch : String → String → HdfData)
    (linkCheck compCheck : String → String → Bool × Bool × String)
    (disp3 disp12 : UiState → List Nat → UiState × List String)
    (s : UiState) (emsg : String)
    (hpath : s.filePathText ≠ "") (hkey : s.hdfKeyText ≠ "")
    (hchanged : s.currentState ≠ some (viewStateOf s))
    (hfetch : fetch s.filePathText s.hdfKeyText = HdfData.exn emsg) :
    show_data fetch linkCheck compCheck disp3 disp12 s =
      (reset { s with currentState := some (viewStateOf s) } true, 1,
       if (linkCheck s.filePathText s.hdfKeyText).2.1 = true then
         [(linkCheck s.filePathText s.hdfKeyText).2.2]
       else if (compCheck s.filePathText s.hdfKeyText).2.1 = true then
         [(compCheck s.filePathText s.hdfKeyText).2.2]
       else
         ["Error: " ++ emsg,
          "Dataset may be an external link and the target file is " ++
          "not accessible (moved, deleted, or corrupted) !!!"]) ∧
    (∀ t : UiState,
      (reset t true).filePathText = t.filePathText ∧
      (reset t true).hdfKeyText = t.hdfKeyText ∧
      (reset t true).image = none ∧
      (reset t true).imageNorm = none ∧
      (reset t true).data1d2d = none ∧
      (reset t true).rows = none ∧
      (reset t true).axisEnabled = false ∧
      (reset t true).cmapEnabled = false ∧
      (reset t true).displayTypeEnabled = false ∧
      (reset t true).markerEnabled = false ∧
      (reset t true).mainSliderEnabled = false ∧
      (reset t true).minSliderEnabled = false ∧
      (reset t true).maxSliderEnabled = false ∧
      (reset t true).saveImageEnabled = false ∧
      (reset t true).saveDataEnabled = false) := by
  refine ⟨?_, ?_⟩
  · simp only [show_data]
    rw [if_pos ⟨hpath, hkey⟩, if_pos hchanged, hfetch]
    by_cases h1 : (linkCheck s.filePathText s.hdfKeyText).2.1 = true
    · simp [h1]
    · by_cases h2 : (compCheck s.filePathText s.hdfKeyText).2.1 = true
      · simp [h1, h2]
      · simp [h1, h2]
  · intro t
    simp [reset, disable_sliders]

/-- C4, witness: the diagnostic theorem applied to a state with a selected
file and key, a changed view state, a raising fetch, and a broken-link
check; the surfaced notice is the link message. -/
theorem c4_fetch_error_diagnostics_witness :
    pickedState.filePathText ≠ "" ∧ pickedState.hdfKeyText ≠ "" ∧
    pickedState.currentState ≠ some (viewStateOf pickedState) ∧
    fetchBoom pickedState.filePathText pickedState.hdfKeyText =
      HdfData.exn "boom" ∧
    (show_data fetchBoom linkBroken compNone dispNoop dispNoop
        pickedState).2.2 =
      [(linkBroken pickedState.filePathText pickedState.hdfKeyText).2.2] := by
  refine ⟨by simp [pickedState, initState], by simp [pickedState, initState],
          by simp [pickedState, initState], rfl, ?_⟩
  have h := (c4_fetch_error_diagnostics fetchBoom linkBroken compNone
    dispNoop dispNoop pickedState "boom"
    (by simp [pickedState, initState]) (by simp [pickedState, initState])
    (by simp [pickedState, initState]) rfl).1
  rw [h]
  simp [linkBroken]

/-- C9: if no ViewState field changed between two polls — the stored
current_state equals the tuple read off the widgets — and a file and key
are displayed, the reconciliation pass is a no-op: show_data performs zero
file reads, emits no notice, and returns the state unchanged. -/
theorem c9_unchanged_state_is_noop
    (fetch : String → String → HdfData)
    (linkCheck compCheck : String → String → Bool × Bool × String)
    (disp3 disp12 : UiState → List Nat → UiState × List String)
    (s : UiState)
    (hpath : s.filePathText ≠ "") (hkey : s.hdfKeyText ≠ "")
    (hsame : s.currentState = some (viewStateOf s)) :
    show_data fetch linkCheck compCheck disp3 disp12 s = (s, 0, []) := by
  simp only [show_data]
  rw [if_pos ⟨hpath, hkey⟩, if_neg (not_not_intro hsame)]

/-- The picked state with its view state stored, as after a completed
poll. -/
def settledState : UiState :=
  { pickedState with currentState := some (viewStateOf pickedState) }

/-- C9, witness: the no-op theorem applied to a settled state: the poll
returns it unchanged with zero reads and no notices. -/
theorem c9_unchanged_state_is_noop_witness :
    settledState.filePathText ≠ "" ∧ settledState.hdfKeyText ≠ "" ∧
    settledState.currentState = some (viewStateOf settledState) ∧
    show_data fetchBoom linkBroken compNone dispNoop dispNoop settledState =
      (settledState, 0, []) :=
  ⟨by simp [settledState, pickedState, initState],
   by simp [settledState, pickedState, initState], rfl,
   c9_unchanged_state_is_noop fetchBoom linkBroken compNone dispNoop dispNoop
     settledState (by simp [settledState, pickedState, initState])
     (by simp [settledState, pickedState, initState]) rfl⟩

/-- C5: contrast normalization with a non-default slider window (and the
window well-formed, min below max, as the sliders enforce by clamping): a
constant-valued slice yields an all-zero normalized image of the same
shape; otherwise the slice is rescaled to 0-255 by its own extrema and
clipped, so every normalized value lies between the min and max slider
values. -/
theorem c5_contrast_normalization (s : UiState) (img : Mat)
    (himg : s.image = some img)
    (hwin : 0 < s.minSliderVal ∨ s.maxSliderVal < 255)
    (hlt : s.minSliderVal < s.maxSliderVal) :
    ∃ nm, (apply_contrast s).imageNorm = some nm ∧
      nm.height = img.height ∧ nm.width = img.width ∧
      (matMax img = matMin img → ∀ i j, nm.entry i j = 0) ∧
      (matMax img ≠ matMin img → ∀ i j,
        (s.minSliderVal : ℚ) ≤ nm.entry i j ∧
        nm.entry i j ≤ (s.maxSliderVal : ℚ)) := by
  have hnot : ¬ s.minSliderVal ≥ s.maxSliderVal := not_le.mpr hlt
  simp only [apply_contrast, if_pos hwin, if_neg hnot, himg]
  by_cases hc : matMax img = matMin img
  · rw [if_neg (fun hne => hne hc)]
    exact ⟨_, rfl, rfl, rfl, fun _ _ _ => rfl, fun hne => absurd hc hne⟩
  · rw [if_pos hc]
    refine ⟨_, rfl, rfl, rfl, fun heq => absurd heq hc, fun _ i j => ⟨?_, ?_⟩⟩
    · exact le_min (le_max_right _ _) (by exact_mod_cast hlt.le)
    · exact min_le_right _ _

/-- A state displaying a non-constant 2-by-2 slice with the contrast window
set to [10, 200]. -/
def contrastState : UiState :=
  { initState with image := some ⟨2, 2, fun i j => (i : ℚ) + j⟩,
                   minSliderVal := 10, maxSliderVal := 200 }

/-- C5, witness: the normalization theorem applied to the 2-by-2 slice
with window [10, 200]. -/
theorem c5_contrast_normalization_witness :
    contrastState.image = some ⟨2, 2, fun i j => (i : ℚ) + j⟩ ∧
    (0 < contrastState.minSliderVal ∨ contrastState.maxSliderVal < 255) ∧
    contrastState.minSliderVal < contrastState.maxSliderVal ∧
    (∃ nm, (apply_contrast contrastState).imageNorm = some nm ∧
      nm.height = (⟨2, 2, fun i j => (i : ℚ) + j⟩ : Mat).height ∧
      nm.width = (⟨2, 2, fun i j => (i : ℚ) + j⟩ : Mat).width ∧
      (matMax ⟨2, 2, fun i j => (i : ℚ) + j⟩ =
          matMin ⟨2, 2, fun i j => (i : ℚ) + j⟩ →
        ∀ i j, nm.entry i j = 0) ∧
      (matMax ⟨2, 2, fun i j => (i : ℚ) + j⟩ ≠
          matMin ⟨2, 2, fun i j => (i : ℚ) + j⟩ →
        ∀ i j, (contrastState.minSliderVal : ℚ) ≤ nm.entry i j ∧
          nm.entry i j ≤ (contrastState.maxSliderVal : ℚ))) :=
  ⟨rfl, Or.inl (by norm_num [contrastState, initState]),
   by norm_num [contrastState, initState],
   c5_contrast_normalization contrastState ⟨2, 2, fun i j => (i : ℚ) + j⟩ rfl
     (Or.inl (by norm_num [contrastState, initState]))
     (by norm_num [contrastState, initState])⟩

/-- C8: the plot strategy on a 2-D array with exactly one dimension equal
to 2 plots coordinate pairs — two rows plot row 0 against row 1, two
columns (and a different number of rows) plot column 0 against column 1 —
a 2-D array with neither dimension equal to 2 is routed to the raster
image path, and a 1-D array is plotted against its implicit indices
0..len-1. -/
theorem c8_plot_dimensionality_rule (s : UiState) (m : Mat) (xs : List ℚ) :
    (m.height = 2 →
      (display_1d_2d_data s (NpArray.d2 m) "plot").2 =
        PlotOut.coords (m.row 0) (m.row 1)) ∧
    (m.height ≠ 2 → m.width = 2 →
      (display_1d_2d_data s (NpArray.d2 m) "plot").2 =
        PlotOut.coords (m.col 0) (m.col 1)) ∧
    (m.height ≠ 2 → m.width ≠ 2 →
      (display_1d_2d_data s (NpArray.d2 m) "plot").2 = PlotOut.raster m) ∧
    (display_1d_2d_data s (NpArray.d1 xs) "plot").2 =
      PlotOut.coords ((List.range xs.length).map (fun (i : Nat) => (i : ℚ)))
        xs := by
  refine ⟨?_, ?_, ?_, ?_⟩
  · intro h2
    simp only [display_1d_2d_data]
    rw [if_neg (by decide), if_pos h2]
  · intro hn2 hw2
    simp only [display_1d_2d_data]
    rw [if_neg (by decide), if_neg hn2, if_pos hw2]
  · intro hn2 hnw2
    simp only [display_1d_2d_data]
    rw [if_neg (by decide), if_neg hn2, if_neg hnw2]
  · simp only [display_1d_2d_data]
    rw [if_neg (by decide)]

/-- A 2-by-3 coordinate-pair array for the C8 witness. -/
def pairMat : Mat := ⟨2, 3, fun i j => (i : ℚ) + j⟩

/-- C8, witness: the dimensionality rule applied to a 2-by-3 array: the
plot is row 0 against row 1. -/
theorem c8_plot_dimensionality_rule_witness :
    pairMat.height = 2 ∧
    (display_1d_2d_data initState (NpArray.d2 pairMat) "plot").2 =
      PlotOut.coords (pairMat.row 0) (pairMat.row 1) :=
  ⟨rfl, (c8_plot_dimensionality_rule initState pairMat []).1 rfl⟩

/-- C10: the pick dialog filters its grid by the INPUT_EXT allow-list
{hdf, nxs, h5, hdf5}, so a file named "data.hdf5" is listed; yet handle_ok
accepts only the suffixes {.h5, .hdf, .nxs}, so pressing Ok on the listed
"data.hdf5" refuses to submit it — contradicting the allow-list, the
double-click path (which submits any non-directory), and the notice of
display_hdf_tree naming hdf5 an accepted format. -/
theorem c10_hdf5_listed_but_ok_rejects :
    update_grid_keeps (some INPUT_EXT) false "data.hdf5" = true ∧
    check_extension (some INPUT_EXT) "data.hdf5" = true ∧
    handle_ok_accepts "data.hdf5" = false ∧
    handle_double_click_submits false = true := by
  refine ⟨?_, ?_, ?_, rfl⟩ <;> decide

/-- Enabling the 3-D widgets does not touch the axis selector value. -/
theorem enable3d_axisVal (s : UiState) :
    (enable_ui_elements_3d_data s).axisVal = s.axisVal := by
  simp only [enable_ui_elements_3d_data]
  split_ifs <;> rfl

/-- Enabling the 3-D widgets does not touch the main slider value. -/
theorem enable3d_mainSliderVal (s : UiState) :
    (enable_ui_elements_3d_data s).mainSliderVal = s.mainSliderVal := by
  simp only [enable_ui_elements_3d_data]
  split_ifs <;> rfl

/-- Enabling the 3-D widgets does not touch the main slider bound. -/
theorem enable3d_mainSliderMax (s : UiState) :
    (enable_ui_elements_3d_data s).mainSliderMax = s.mainSliderMax := by
  simp only [enable_ui_elements_3d_data]
  split_ifs <;> rfl

/-- Enabling the 3-D widgets does not touch the file-path label. -/
theorem enable3d_filePathText (s : UiState) :
    (enable_ui_elements_3d_data s).filePathText = s.filePathText := by
  simp only [enable_ui_elements_3d_data]
  split_ifs <;> rfl

/-- Enabling the 3-D widgets does not touch the stored slice triple. -/
theorem enable3d_currentSlice (s : UiState) :
    (enable_ui_elements_3d_data s).currentSlice = s.currentSlice := by
  simp only [enable_ui_elements_3d_data]
  split_ifs <;> rfl

/-- Enabling the 3-D widgets does not touch the cached slice. -/
theorem enable3d_image (s : UiState) :
    (enable_ui_elements_3d_data s).image = s.image := by
  simp only [enable_ui_elements_3d_data]
  split_ifs <;> rfl

/-- After the bound update the stored slider maximum is the new bound. -/
theorem usm_mainSliderMax (s : UiState) (m : Nat) :
    (update_slider_max s m).mainSliderMax = m := by
  simp only [update_slider_max]
  split_ifs with h
  · rfl
  · exact Decidable.not_not.mp h

/-- The bound update does not touch the slider value. -/
theorem usm_mainSliderVal (s : UiState) (m : Nat) :
    (update_slider_max s m).mainSliderVal = s.mainSliderVal := by
  simp only [update_slider_max]
  split_ifs <;> rfl

/-- The bound update does not touch the axis selector. -/
theorem usm_axisVal (s : UiState) (m : Nat) :
    (update_slider_max s m).axisVal = s.axisVal := by
  simp only [update_slider_max]
  split_ifs <;> rfl

/-- The bound update does not touch the file-path label. -/
theorem usm_filePathText (s : UiState) (m : Nat) :
    (update_slider_max s m).filePathText = s.filePathText := by
  simp only [update_slider_max]
  split_ifs <;> rfl

/-- The bound update does not touch the stored slice triple. -/
theorem usm_currentSlice (s : UiState) (m : Nat) :
    (update_slider_max s m).currentSlice = s.currentSlice := by
  simp only [update_slider_max]
  split_ifs <;> rfl

/-- The bound update does not touch the cached slice. -/
theorem usm_image (s : UiState) (m : Nat) :
    (update_slider_max s m).image = s.image := by
  simp only [update_slider_max]
  split_ifs <;> rfl

/-- The clamp leaves the slider at the minimum of its value and the
bound. -/
theorem cs_mainSliderVal (s : UiState) (m : Nat) :
    (clamp_slider s m).1.mainSliderVal = min s.mainSliderVal m := by
  simp only [clamp_slider]
  split_ifs with h
  · simp; omega
  · simp; omega

/-- The position the clamp hands to the slicing is the minimum of the
slider value and the bound. -/
theorem cs_pos (s : UiState) (m : Nat) :
    (clamp_slider s m).2 = min s.mainSliderVal m := by
  simp only [clamp_slider]
  split_ifs with h
  · simp; omega
  · simp; omega

/-- The clamp does not touch the slider bound. -/
theorem cs_mainSliderMax (s : UiState) (m : Nat) :
    (clamp_slider s m).1.mainSliderMax = s.mainSliderMax := by
  simp only [clamp_slider]
  split_ifs <;> rfl

/-- The clamp does not touch the axis selector. -/
theorem cs_axisVal (s : UiState) (m : Nat) :
    (clamp_slider s m).1.axisVal = s.axisVal := by
  simp only [clamp_slider]
  split_ifs <;> rfl

/-- The clamp does not touch the file-path label. -/
theorem cs_filePathText (s : UiState) (m : Nat) :
    (clamp_slider s m).1.filePathText = s.filePathText := by
  simp only [clamp_slider]
  split_ifs <;> rfl

/-- The clamp does not touch the stored slice triple. -/
theorem cs_currentSlice (s : UiState) (m : Nat) :
    (clamp_slider s m).1.currentSlice = s.currentSlice := by
  simp only [clamp_slider]
  split_ifs <;> rfl

/-- The clamp does not touch the cached slice. -/
theorem cs_image (s : UiState) (m : Nat) :
    (clamp_slider s m).1.image = s.image := by
  simp only [clamp_slider]
  split_ifs <;> rfl

/-- Core slicing on axis 0: the recorded bound is depth-1, the slider is
clamped to the bound, no notice is emitted, and a fresh render slices
axis 0 at the clamped index. -/
theorem display3d_core_axis0 (s : UiState) (a : Arr3) (hax : s.axisVal = 0) :
    (display_3d_slicing_core s a).1.mainSliderMax = a.depth - 1 ∧
    (display_3d_slicing_core s a).1.mainSliderVal =
      min s.mainSliderVal (a.depth - 1) ∧
    (display_3d_slicing_core s a).2 = [] ∧
    (s.image = none →
      (display_3d_slicing_core s a).1.image =
        some (a.slice0 (min s.mainSliderVal (a.depth - 1)))) := by
  simp only [display_3d_slicing_core, hax, usm_mainSliderMax,
    usm_mainSliderVal, usm_axisVal, usm_filePathText, usm_currentSlice,
    usm_image, cs_mainSliderVal, cs_pos, cs_mainSliderMax, cs_axisVal,
    cs_filePathText, cs_currentSlice, cs_image]
  simp only [if_neg (show ¬(0 : Nat) = 2 by decide),
    if_neg (show ¬(0 : Nat) = 1 by decide)]
  split_ifs with h1
  · exact ⟨rfl, rfl, rfl, fun _ => rfl⟩
  · refine ⟨?_, ?_, rfl, fun him => ?_⟩
    · simp only [cs_mainSliderMax, usm_mainSliderMax]
    · simp only [cs_mainSliderVal, usm_mainSliderVal]
    · rw [him] at h1
      simp at h1

/-- Core slicing on axis 1: the recorded bound is height-1, the slider is
clamped to the bound, the axis selector stays at 1, and a fresh render
slices axis 1 at the clamped index, warning exactly when depth and width
both exceed 1000 and never falling back. -/
theorem display3d_core_axis1 (s : UiState) (a : Arr3) (hax : s.axisVal = 1) :
    (display_3d_slicing_core s a).1.mainSliderMax = a.height - 1 ∧
    (display_3d_slicing_core s a).1.mainSliderVal =
      min s.mainSliderVal (a.height - 1) ∧
    (display_3d_slicing_core s a).1.axisVal = 1 ∧
    (s.image = none →
      (display_3d_slicing_core s a).1.image =
        some (a.slice1 (min s.mainSliderVal (a.height - 1))) ∧
      (display_3d_slicing_core s a).2 =
        (if a.depth > 1000 ∧ a.width > 1000 then
          ["Slicing along axis 1 can take time !"] else [])) := by
  simp only [display_3d_slicing_core, hax, usm_mainSliderMax,
    usm_mainSliderVal, usm_axisVal, usm_filePathText, usm_currentSlice,
    usm_image, cs_mainSliderVal, cs_pos, cs_mainSliderMax, cs_axisVal,
    cs_filePathText, cs_currentSlice, cs_image]
  simp only [if_neg (show ¬(1 : Nat) = 2 by decide),
    if_pos (show (1 : Nat) = 1 by decide), if_true]
  split_ifs with h1 h2
  · exact ⟨rfl, rfl, rfl, fun _ => ⟨rfl, rfl⟩⟩
  · exact ⟨rfl, rfl, rfl, fun _ => ⟨rfl, rfl⟩⟩
  · refine ⟨?_, ?_, ?_, fun him => ?_⟩
    · simp only [cs_mainSliderMax, usm_mainSliderMax]
    · simp only [cs_mainSliderVal, usm_mainSliderVal]
    · simp only [cs_axisVal, usm_axisVal, hax]
    · rw [him] at h1
      simp at h1
  · refine ⟨?_, ?_, ?_, fun him => ?_⟩
    · simp only [cs_mainSliderMax, usm_mainSliderMax]
    · simp only [cs_mainSliderVal, usm_mainSliderVal]
    · simp only [cs_axisVal, usm_axisVal, hax]
    · rw [him] at h1
      simp at h1

/-- Core slicing on axis 2: the recorded bound is width-1; on an array
whose depth and height both exceed 1000 a fresh render falls back to
slice 0 of axis 0 with a notice; otherwise the slider is clamped, the axis
stays at 2, and a fresh render slices axis 2 at the clamped index with no
notice. -/
theorem display3d_core_axis2 (s : UiState) (a : Arr3) (hax : s.axisVal = 2) :
    (display_3d_slicing_core s a).1.mainSliderMax = a.width - 1 ∧
    (a.depth > 1000 → a.height > 1000 → s.image = none →
      (display_3d_slicing_core s a).1.axisVal = 0 ∧
      (display_3d_slicing_core s a).1.mainSliderVal = 0 ∧
      (display_3d_slicing_core s a).1.image = some (a.slice0 0) ∧
      (display_3d_slicing_core s a).2 =
        ["Slicing along axis 2 is very time-consuming!"]) ∧
    (¬(a.depth > 1000 ∧ a.height > 1000) →
      (display_3d_slicing_core s a).1.mainSliderVal =
        min s.mainSliderVal (a.width - 1) ∧
      (display_3d_slicing_core s a).1.axisVal = 2 ∧
      (s.image = none →
        (display_3d_slicing_core s a).1.image =
          some (a.slice2 (min s.mainSliderVal (a.width - 1))) ∧
        (display_3d_slicing_core s a).2 = [])) := by
  simp only [display_3d_slicing_core, hax, usm_mainSliderMax,
    usm_mainSliderVal, usm_axisVal, usm_filePathText, usm_currentSlice,
    usm_image, cs_mainSliderVal, cs_pos, cs_mainSliderMax, cs_axisVal,
    cs_filePathText, cs_currentSlice, cs_image]
  simp only [if_pos (show (2 : Nat) = 2 by decide), if_true]
  split_ifs with h1 h2
  · refine ⟨rfl, fun _ _ _ => ⟨rfl, rfl, rfl, rfl⟩, fun hnb => absurd h2 hnb⟩
  · refine ⟨rfl, fun hd hh _ => absurd ⟨hd, hh⟩ h2,
      fun _ => ⟨rfl, rfl, fun _ => ⟨rfl, rfl⟩⟩⟩
  · refine ⟨?_, fun _ _ him => ?_, fun _ => ⟨?_, ?_, fun him => ?_⟩⟩
    · simp only [cs_mainSliderMax, usm_mainSliderMax]
    · rw [him] at h1
      simp at h1
    · simp only [cs_mainSliderVal, usm_mainSliderVal]
    · simp only [cs_axisVal, usm_axisVal, hax]
    · rw [him] at h1
      simp at h1

/-- C6: for a 3-D array of shape (depth, height, width) the slider bound
recorded by the slicing step is depth-1 on axis 0, height-1 on axis 1 and
width-1 on axis 2; a slider value beyond the bound is clamped to the bound
before slicing, so the slider ends at the minimum of the requested index
and the bound and a fresh render slices at that clamped index (on axis 2
whenever the large-array fallback of the axis-2 policy does not fire). -/
theorem c6_slice_bound_and_clamp (s : UiState) (a : Arr3) :
    (s.axisVal = 0 →
      (display_3d_slicing s a).1.mainSliderMax = a.depth - 1 ∧
      (display_3d_slicing s a).1.mainSliderVal =
        min s.mainSliderVal (a.depth - 1) ∧
      (s.image = none →
        (display_3d_slicing s a).1.image =
          some (a.slice0 (min s.mainSliderVal (a.depth - 1))))) ∧
    (s.axisVal = 1 →
      (display_3d_slicing s a).1.mainSliderMax = a.height - 1 ∧
      (display_3d_slicing s a).1.mainSliderVal =
        min s.mainSliderVal (a.height - 1) ∧
      (s.image = none →
        (display_3d_slicing s a).1.image =
          some (a.slice1 (min s.mainSliderVal (a.height - 1))))) ∧
    (s.axisVal = 2 →
      (display_3d_slicing s a).1.mainSliderMax = a.width - 1 ∧
      (¬(a.depth > 1000 ∧ a.height > 1000) →
        (display_3d_slicing s a).1.mainSliderVal =
          min s.mainSliderVal (a.width - 1) ∧
        (s.image = none →
          (display_3d_slicing s a).1.image =
            some (a.slice2 (min s.mainSliderVal (a.width - 1)))))) := by
  refine ⟨fun hax => ?_, fun hax => ?_, fun hax => ?_⟩
  · have h := display3d_core_axis0 (enable_ui_elements_3d_data s) a
      (by rw [enable3d_axisVal, hax])
    simp only [enable3d_mainSliderVal, enable3d_image] at h
    exact ⟨h.1, h.2.1, h.2.2.2⟩
  · have h := display3d_core_axis1 (enable_ui_elements_3d_data s) a
      (by rw [enable3d_axisVal, hax])
    simp only [enable3d_mainSliderVal, enable3d_image] at h
    exact ⟨h.1, h.2.1, fun him => (h.2.2.2 him).1⟩
  · have h := display3d_core_axis2 (enable_ui_elements_3d_data s) a
      (by rw [enable3d_axisVal, hax])
    simp only [enable3d_mainSliderVal, enable3d_image] at h
    exact ⟨h.1, fun hnb => ⟨(h.2.2 hnb).1,
      fun him => ((h.2.2 hnb).2.2 him).1⟩⟩

/-- A 3-by-4-by-5 test array. -/
def smallCube : Arr3 := ⟨3, 4, 5, fun _ _ _ => 0⟩

/-- The picked state with the slider pushed to 100, beyond the depth bound
of smallCube. -/
def clampState : UiState := { pickedState with mainSliderVal := 100 }

/-- C6, witness: the bound-and-clamp theorem on axis 0 of a 3-by-4-by-5
array with the slider at 100: the bound becomes 2 and the slider and slice
index are clamped. -/
theorem c6_slice_bound_and_clamp_witness :
    clampState.axisVal = 0 ∧ clampState.image = none ∧
    (display_3d_slicing clampState smallCube).1.mainSliderMax =
      smallCube.depth - 1 ∧
    (display_3d_slicing clampState smallCube).1.mainSliderVal =
      min clampState.mainSliderVal (smallCube.depth - 1) ∧
    (display_3d_slicing clampState smallCube).1.image =
      some (smallCube.slice0
        (min clampState.mainSliderVal (smallCube.depth - 1))) :=
  ⟨rfl, rfl,
   ((c6_slice_bound_and_clamp clampState smallCube).1 rfl).1,
   ((c6_slice_bound_and_clamp clampState smallCube).1 rfl).2.1,
   ((c6_slice_bound_and_clamp clampState smallCube).1 rfl).2.2 rfl⟩

/-- The 1001-by-1001-by-1 test array whose depth and height both exceed
1000. -/
def bigThin : Arr3 := ⟨1001, 1001, 1, fun _ _ _ => 0⟩

/-- The picked state set to slice along axis 1. -/
def axis1State : UiState := { pickedState with axisVal := 1 }

/-- C7, counterexample: the claim says that on an array whose depth and
height both exceed 1000 slicing along axis 1 emits a warning; the warning
condition of the code compares depth and width, so on a 1001-by-1001-by-1
array axis 1 emits no notice at all while still slicing along axis 1. -/
theorem c7_counterexample :
    bigThin.depth > 1000 ∧ bigThin.height > 1000 ∧
    (display_3d_slicing axis1State bigThin).2 = [] ∧
    (display_3d_slicing axis1State bigThin).1.axisVal = 1 ∧
    (display_3d_slicing axis1State bigThin).1.image =
      some (bigThin.slice1 0) := by
  have h := display3d_core_axis1 (enable_ui_elements_3d_data axis1State)
    bigThin (by rw [enable3d_axisVal]; rfl)
  simp only [enable3d_mainSliderVal, enable3d_image] at h
  obtain ⟨hi, hn⟩ := h.2.2.2 rfl
  refine ⟨by norm_num [bigThin], by norm_num [bigThin], ?_, h.2.2.1, ?_⟩
  · rw [if_neg (by norm_num [bigThin])] at hn
    exact hn
  · show (display_3d_slicing_core (enable_ui_elements_3d_data axis1State)
      bigThin).1.image = some (bigThin.slice1 0)
    rw [hi]
    norm_num [axis1State, pickedState, initState, bigThin]

/-- C7, amended: the axis-2 fallback is as the claim states it — on an
array whose depth and height both exceed 1000 a fresh render along axis 2
notifies and falls back to slice 0 of axis 0 — but the axis-1 warning
compares depth and width, not depth and height: axis 1 always slices along
axis 1 without falling back and warns exactly when depth and width both
exceed 1000. -/
theorem c7_large_array_axis_policy (s : UiState) (a : Arr3) :
    (s.axisVal = 2 → a.depth > 1000 → a.height > 1000 → s.image = none →
      (display_3d_slicing s a).2 =
        ["Slicing along axis 2 is very time-consuming!"] ∧
      (display_3d_slicing s a).1.axisVal = 0 ∧
      (display_3d_slicing s a).1.mainSliderVal = 0 ∧
      (display_3d_slicing s a).1.image = some (a.slice0 0)) ∧
    (s.axisVal = 1 → s.image = none →
      (display_3d_slicing s a).1.axisVal = 1 ∧
      (display_3d_slicing s a).1.image =
        some (a.slice1 (min s.mainSliderVal (a.height - 1))) ∧
      (display_3d_slicing s a).2 =
        (if a.depth > 1000 ∧ a.width > 1000 then
          ["Slicing along axis 1 can take time !"] else [])) := by
  constructor
  · intro hax hd hh him
    have h := display3d_core_axis2 (enable_ui_elements_3d_data s) a
      (by rw [enable3d_axisVal, hax])
    simp only [enable3d_mainSliderVal, enable3d_image] at h
    obtain ⟨h1, h2, h3, h4⟩ := h.2.1 hd hh him
    exact ⟨h4, h1, h2, h3⟩
  · intro hax him
    have h := display3d_core_axis1 (enable_ui_elements_3d_data s) a
      (by rw [enable3d_axisVal, hax])
    simp only [enable3d_mainSliderVal, enable3d_image] at h
    exact ⟨h.2.2.1, (h.2.2.2 him).1, (h.2.2.2 him).2⟩

/-- The picked state set to slice along axis 2. -/
def axis2State : UiState := { pickedState with axisVal := 2 }

/-- C7, witness: the amended policy applied to the 1001-by-1001-by-1 array
on axis 2: the fallback notice fires and slice 0 of axis 0 is shown. -/
theorem c7_large_array_axis_policy_witness :
    axis2State.axisVal = 2 ∧ bigThin.depth > 1000 ∧ bigThin.height > 1000 ∧
    axis2State.image = none ∧
    ((display_3d_slicing axis2State bigThin).2 =
      ["Slicing along axis 2 is very time-consuming!"] ∧
     (display_3d_slicing axis2State bigThin).1.axisVal = 0 ∧
     (display_3d_slicing axis2State bigThin).1.mainSliderVal = 0 ∧
     (display_3d_slicing axis2State bigThin).1.image =
       some (bigThin.slice0 0)) :=
  ⟨rfl, by norm_num [bigThin], by norm_num [bigThin], rfl,
   (c7_large_array_axis_policy axis2State bigThin).1 rfl
     (by norm_num [bigThin]) (by norm_num [bigThin]) rfl⟩

end Broh5
